import Mathlib

/-!
Verification development for the invoice data-model and error-taxonomy core
(`backend/app/schemas/invoice_schema.py`, `backend/app/utils/exceptions.py`).

Modelling conventions:
* Python `Decimal` and `float` amounts are embedded as `ℚ` (exact decimal
  arithmetic embeds exactly in the rationals; the tolerance `0.01` is `1/100`).
* `date` values are embedded as `Int` (a day number); `(d2 - d1).days` is
  `d2 - d1`.  `datetime` values are embedded as `Int` timestamps.
* `date.today()` / `datetime.now()` become explicit `today`/`now` parameters.
* Pydantic construction is embedded as an explicit `construct` function that
  runs every declared field constraint and `@validator` in field-declaration
  order and returns `Except VErr _`; construction succeeds exactly when every
  check passes.  (Pydantic reports the full error list; the embedding reports
  the first failing check, which has the same success set.)
* Validation errors are embedded structurally: the mismatch errors carry the
  expected and the actual value, exactly the two quantities interpolated into
  the source's `ValueError` message strings.
-/

namespace InvoiceAI

/-- `InvoiceType` enum (invoice_schema.py lines 13-19). -/
inductive InvoiceType where
  | standard
  | credit_note
  | debit_note
  | proforma
deriving DecidableEq

/-- The `.value` string of an `InvoiceType` member. -/
def InvoiceType.value : InvoiceType → String
  | .standard => "standard"
  | .credit_note => "credit_note"
  | .debit_note => "debit_note"
  | .proforma => "proforma"

/-- Enum coercion from a string, as pydantic performs for `str`-valued enums. -/
def InvoiceType.ofString : String → Option InvoiceType
  | "standard" => some .standard
  | "credit_note" => some .credit_note
  | "debit_note" => some .debit_note
  | "proforma" => some .proforma
  | _ => none

/-- `Currency` enum (invoice_schema.py lines 22-29). -/
inductive Currency where
  | SAR
  | USD
  | EUR
  | AED
  | EGP
deriving DecidableEq

/-- The `.value` string of a `Currency` member. -/
def Currency.value : Currency → String
  | .SAR => "SAR"
  | .USD => "USD"
  | .EUR => "EUR"
  | .AED => "AED"
  | .EGP => "EGP"

/-- Enum coercion from a string. -/
def Currency.ofString : String → Option Currency
  | "SAR" => some .SAR
  | "USD" => some .USD
  | "EUR" => some .EUR
  | "AED" => some .AED
  | "EGP" => some .EGP
  | _ => none

/-- `Language` enum (invoice_schema.py lines 32-38). -/
inductive Language where
  | ar
  | en
  | fr
  | mixed
deriving DecidableEq

/-- The `.value` string of a `Language` member. -/
def Language.value : Language → String
  | .ar => "ar"
  | .en => "en"
  | .fr => "fr"
  | .mixed => "mixed"

/-- Enum coercion from a string. -/
def Language.ofString : String → Option Language
  | "ar" => some .ar
  | "en" => some .en
  | "fr" => some .fr
  | "mixed" => some .mixed
  | _ => none

/-- A generic key/value tree: the embedding of the Python values that appear
in `model.dict()` output and in exception `details` dictionaries.
`vNum` embeds both `Decimal` and `float` (exact values in `ℚ`), `vInt`
embeds `int`, `vDate`/`vDateTime` embed `date`/`datetime` objects. -/
inductive Val where
  | vNull
  | vBool (b : Bool)
  | vStr (s : String)
  | vInt (n : Int)
  | vNum (q : ℚ)
  | vDate (d : Int)
  | vDateTime (t : Int)
  | vList (xs : List Val)
  | vDict (entries : List (String × Val))

/-- A Python dict embedded as an association list (insertion-ordered,
looked up by key). -/
abbrev Dict := List (String × Val)

/-- Build a dict from a field list, omitting the fields whose value is
absent: this is exactly the effect of `dict(exclude_none=True)`, which
drops `None`-valued fields. -/
def mkDict (fields : List (String × Option Val)) : Dict :=
  fields.filterMap fun p => p.2.map fun v => (p.1, v)

/-- `VendorInfo` (invoice_schema.py lines 69-87): only `name` is required,
everything else is `Optional[str]` defaulting to `None`; no validators. -/
structure VendorInfo where
  name : String
  name_ar : Option String := none
  name_en : Option String := none
  tax_id : Option String := none
  registration_number : Option String := none
  address : Option String := none
  city : Option String := none
  country : Option String := none
  phone : Option String := none
  email : Option String := none
  website : Option String := none
  mapped_vendor_code : Option String := none
deriving DecidableEq

/-- `CustomerInfo` (invoice_schema.py lines 90-99). -/
structure CustomerInfo where
  name : String
  tax_id : Option String := none
  registration_number : Option String := none
  address : Option String := none
  city : Option String := none
  country : Option String := none
  phone : Option String := none
deriving DecidableEq

/-- `InvoiceLineItem` (invoice_schema.py lines 41-66).  `quantity` is a
Python `float`, the money fields are `Decimal`; both embed as `ℚ`. -/
structure InvoiceLineItem where
  description : String
  description_ar : Option String := none
  description_en : Option String := none
  quantity : ℚ
  unit_price : ℚ
  unit : Option String := none
  discount : ℚ := 0
  tax_rate : ℚ := 0
  tax_amount : ℚ := 0
  line_total : ℚ
  item_code : Option String := none
deriving DecidableEq

/-- `TaxBreakdown` (invoice_schema.py lines 102-108). -/
structure TaxBreakdown where
  tax_type : String
  tax_rate : ℚ
  taxable_amount : ℚ
  tax_amount : ℚ
deriving DecidableEq

/-- `PaymentInfo` (invoice_schema.py lines 111-124); all fields optional,
no constraints. -/
structure PaymentInfo where
  payment_method : Option String := none
  payment_terms : Option String := none
  due_date : Option Int := none
  bank_name : Option String := none
  bank_account : Option String := none
  iban : Option String := none
  swift_code : Option String := none
deriving DecidableEq

/-- `Invoice` (invoice_schema.py lines 127-233), fields in declaration
order. -/
structure Invoice where
  invoice_number : String
  invoice_type : InvoiceType := .standard
  invoice_date : Int
  currency : Currency := .SAR
  language_detected : Language := .ar
  vendor : VendorInfo
  customer : Option CustomerInfo := none
  line_items : List InvoiceLineItem
  subtotal : ℚ
  total_discount : ℚ := 0
  total_tax : ℚ := 0
  total_amount : ℚ
  tax_breakdown : Option (List TaxBreakdown) := none
  payment_info : Option PaymentInfo := none
  po_number : Option String := none
  reference_number : Option String := none
  notes : Option String := none
  qr_code : Option String := none
  confidence_score : ℚ := 0
  extraction_timestamp : Int
  source_file : Option String := none
  page_count : Option Int := none
deriving DecidableEq

/-- `ExtractionResult` (invoice_schema.py lines 236-245). -/
structure ExtractionResult where
  success : Bool
  invoice : Option Invoice := none
  errors : List String := []
  warnings : List String := []
  processing_time : ℚ
  retry_count : Int := 0
  llm_model_used : Option String := none
deriving DecidableEq

/-- Structured embedding of the construction-time validation failures.
The mismatch variants carry the `expected` and the actual (`got`) value,
the two quantities interpolated into the source's `ValueError` messages
(`"Line total mismatch: expected {expected}, got {v}"`,
`"Total amount mismatch: expected {expected}, got {v}"`); `dateTooFar`
carries the offending date (`"Invoice date {v} is too far in the future"`);
`constraint f` embeds a failed `Field` range constraint on field `f`;
`tooFewItems` embeds the `min_length=1` failure on `line_items`. -/
inductive VErr where
  | constraint (field : String)
  | lineTotalMismatch (expected got : ℚ)
  | totalMismatch (expected got : ℚ)
  | dateTooFar (d : Int)
  | tooFewItems
deriving DecidableEq

/-- `InvoiceLineItem.validate_line_total` (lines 56-66): on the success path
every earlier field is in `values`, so
`expected = Decimal(str(quantity)) * unit_price - discount + tax_amount`
(`Decimal(str(·))` is the identity on the exact value in the `ℚ` embedding),
and the check fails iff `|expected - v| > 0.01`. -/
def validate_line_total (quantity unit_price discount tax_amount v : ℚ) :
    Except VErr ℚ :=
  if |quantity * unit_price - discount + tax_amount - v| > 1/100 then
    .error (.lineTotalMismatch (quantity * unit_price - discount + tax_amount) v)
  else
    .ok v

/-- A declared `Field` range constraint: construction proceeds with `k`
iff the constraint `b` holds, and fails with `err` otherwise. -/
def check (b : Prop) [Decidable b] (err : VErr) (k : Except VErr α) :
    Except VErr α :=
  if b then k else .error err

/-- Sequence a validator before the rest of construction: a failure
aborts construction with the validator's error. -/
def andThen (r : Except VErr β) (k : Except VErr α) : Except VErr α :=
  match r with
  | .error e => .error e
  | .ok _ => k

/-- Construction-time validation of an `InvoiceLineItem`: the declared
`Field` constraints (`quantity` gt=0, `discount`/`tax_rate`/`tax_amount`
ge=0; lines 47-52) in declaration order, then the `line_total` validator. -/
def InvoiceLineItem.construct (li : InvoiceLineItem) :
    Except VErr InvoiceLineItem :=
  check (0 < li.quantity) (.constraint "quantity") <|
  check (0 ≤ li.discount) (.constraint "discount") <|
  check (0 ≤ li.tax_rate) (.constraint "tax_rate") <|
  check (0 ≤ li.tax_amount) (.constraint "tax_amount") <|
  andThen (validate_line_total li.quantity li.unit_price li.discount
    li.tax_amount li.line_total) <|
  .ok li

/-- `Invoice.validate_total` (lines 200-213): on the success path
`subtotal`, `total_discount`, `total_tax` are all in `values`, so
`expected = subtotal - total_discount + total_tax` and the check fails iff
`|expected - v| > 0.01`. -/
def validate_total (subtotal total_discount total_tax v : ℚ) :
    Except VErr ℚ :=
  if |subtotal - total_discount + total_tax - v| > 1/100 then
    .error (.totalMismatch (subtotal - total_discount + total_tax) v)
  else
    .ok v

/-- `Invoice.validate_date` (lines 215-221): fail iff the date is in the
future and more than 30 days ahead of `date.today()`. -/
def validate_date (today v : Int) : Except VErr Int :=
  if v > today then
    if v - today > 30 then .error (.dateTooFar v) else .ok v
  else
    .ok v

/-- Validate every line item of the list, left to right. -/
def validateItems : List InvoiceLineItem → Except VErr Unit
  | [] => .ok ()
  | li :: rest =>
    match li.construct with
    | .error e => .error e
    | .ok _ => validateItems rest

/-- Construction-time validation of a `TaxBreakdown` (`tax_rate`,
`taxable_amount`, `tax_amount` all ge=0; lines 106-108). -/
def TaxBreakdown.construct (t : TaxBreakdown) : Except VErr TaxBreakdown :=
  check (0 ≤ t.tax_rate) (.constraint "tax_rate") <|
  check (0 ≤ t.taxable_amount) (.constraint "taxable_amount") <|
  check (0 ≤ t.tax_amount) (.constraint "tax_amount") <|
  .ok t

/-- Validate every tax-breakdown entry of an optional list. -/
def validateTaxBreakdowns : Option (List TaxBreakdown) → Except VErr Unit
  | none => .ok ()
  | some [] => .ok ()
  | some (t :: rest) =>
    match t.construct with
    | .error e => .error e
    | .ok _ => validateTaxBreakdowns (some rest)

/-- Construction-time validation of an `Invoice`, mirroring pydantic's
field-declaration order (lines 127-221): `invoice_date`'s validator runs
before the line-item list, the list's `min_length=1` and per-item checks
run before the money fields' ge=0 constraints, `total_amount`'s own ge=0
constraint runs before its `validate_total` validator, and
`confidence_score`'s 0-to-1 range is checked last.  `vendor`, `customer`
and `payment_info` declare no constraints. -/
def Invoice.construct (today : Int) (inv : Invoice) : Except VErr Invoice :=
  andThen (validate_date today inv.invoice_date) <|
  check (1 ≤ inv.line_items.length) .tooFewItems <|
  andThen (validateItems inv.line_items) <|
  check (0 ≤ inv.subtotal) (.constraint "subtotal") <|
  check (0 ≤ inv.total_discount) (.constraint "total_discount") <|
  check (0 ≤ inv.total_tax) (.constraint "total_tax") <|
  check (0 ≤ inv.total_amount) (.constraint "total_amount") <|
  andThen (validate_total inv.subtotal inv.total_discount inv.total_tax
    inv.total_amount) <|
  andThen (validateTaxBreakdowns inv.tax_breakdown) <|
  check (0 ≤ inv.confidence_score ∧ inv.confidence_score ≤ 1)
    (.constraint "confidence_score") <|
  .ok inv

/-- Construction-time validation of an `ExtractionResult`
(`processing_time` ge=0, `retry_count` ge=0; lines 243-244): no other
field carries a constraint, and no validator relates `success` to
`invoice`. -/
def ExtractionResult.construct (r : ExtractionResult) :
    Except VErr ExtractionResult :=
  check (0 ≤ r.processing_time) (.constraint "processing_time") <|
  check (0 ≤ r.retry_count) (.constraint "retry_count") <|
  .ok r

/-! ### Serialization: `Invoice.to_dict` and reconstruction

`Invoice.to_dict` (lines 223-233) is `self.dict(exclude_none=True)`: the
generic key/value tree of the model with `None`-valued fields omitted,
applied recursively to nested models; `Decimal`/`float`/`int`/`date`/
`datetime` values pass through unchanged, and (because of
`use_enum_values = True`) enum fields appear as their value strings.
Reconstruction (`Invoice(**tree)`) parses the tree back, applying field
defaults for absent keys and re-running all construction-time validation. -/

/-- Partial projections of `Val`, embedding pydantic's per-type parsing. -/
def Val.asStr : Val → Option String
  | .vStr s => some s
  | _ => none

/-- Projection to an exact numeric (`Decimal`/`float`) value. -/
def Val.asNum : Val → Option ℚ
  | .vNum q => some q
  | _ => none

/-- Projection to an `int` value. -/
def Val.asInt : Val → Option Int
  | .vInt n => some n
  | _ => none

/-- Projection to a `date` value. -/
def Val.asDate : Val → Option Int
  | .vDate d => some d
  | _ => none

/-- Projection to a `datetime` value. -/
def Val.asDateTime : Val → Option Int
  | .vDateTime t => some t
  | _ => none

/-- Projection to a list value. -/
def Val.asList : Val → Option (List Val)
  | .vList xs => some xs
  | _ => none

/-- Projection to a nested dict value. -/
def Val.asDict : Val → Option Dict
  | .vDict es => some es
  | _ => none

/-- Parse a required field: the key must be present and parse. -/
def parseReq (d : Dict) (k : String) (p : Val → Option α) : Option α :=
  (d.lookup k).bind p

/-- Parse an `Optional[...]` field from an optional raw value: an absent key
or an explicit `None` yields the field value `none`. -/
def parseOptVal (p : Val → Option α) : Option Val → Option (Option α)
  | none => some none
  | some .vNull => some none
  | some v => (p v).map some

/-- Parse an `Optional[...]` field of a dict. -/
def parseOpt (d : Dict) (k : String) (p : Val → Option α) : Option (Option α) :=
  parseOptVal p (d.lookup k)

/-- Parse a field with a declared default: an absent key yields the default. -/
def parseDef (d : Dict) (k : String) (p : Val → Option α) (dflt : α) :
    Option α :=
  match d.lookup k with
  | none => some dflt
  | some v => p v

/-- The field list of a serialized `VendorInfo`, in declaration order;
optional fields carry `none` when the model field is `None`. -/
def VendorInfo.fields (v : VendorInfo) : List (String × Option Val) :=
  [("name", some (.vStr v.name)),
   ("name_ar", v.name_ar.map .vStr),
   ("name_en", v.name_en.map .vStr),
   ("tax_id", v.tax_id.map .vStr),
   ("registration_number", v.registration_number.map .vStr),
   ("address", v.address.map .vStr),
   ("city", v.city.map .vStr),
   ("country", v.country.map .vStr),
   ("phone", v.phone.map .vStr),
   ("email", v.email.map .vStr),
   ("website", v.website.map .vStr),
   ("mapped_vendor_code", v.mapped_vendor_code.map .vStr)]

/-- `exclude_none` dict of a `VendorInfo`. -/
def VendorInfo.toDict (v : VendorInfo) : Dict := mkDict v.fields

/-- Reconstruct a `VendorInfo` from a dict (no constraints to re-check). -/
def VendorInfo.fromDict (d : Dict) : Option VendorInfo :=
  match parseReq d "name" Val.asStr with
  | none => none
  | some name =>
  match parseOpt d "name_ar" Val.asStr with
  | none => none
  | some name_ar =>
  match parseOpt d "name_en" Val.asStr with
  | none => none
  | some name_en =>
  match parseOpt d "tax_id" Val.asStr with
  | none => none
  | some tax_id =>
  match parseOpt d "registration_number" Val.asStr with
  | none => none
  | some registration_number =>
  match parseOpt d "address" Val.asStr with
  | none => none
  | some address =>
  match parseOpt d "city" Val.asStr with
  | none => none
  | some city =>
  match parseOpt d "country" Val.asStr with
  | none => none
  | some country =>
  match parseOpt d "phone" Val.asStr with
  | none => none
  | some phone =>
  match parseOpt d "email" Val.asStr with
  | none => none
  | some email =>
  match parseOpt d "website" Val.asStr with
  | none => none
  | some website =>
  match parseOpt d "mapped_vendor_code" Val.asStr with
  | none => none
  | some mapped_vendor_code =>
  some ⟨name, name_ar, name_en, tax_id, registration_number, address,
    city, country, phone, email, website, mapped_vendor_code⟩

/-- The field list of a serialized `CustomerInfo`. -/
def CustomerInfo.fields (c : CustomerInfo) : List (String × Option Val) :=
  [("name", some (.vStr c.name)),
   ("tax_id", c.tax_id.map .vStr),
   ("registration_number", c.registration_number.map .vStr),
   ("address", c.address.map .vStr),
   ("city", c.city.map .vStr),
   ("country", c.country.map .vStr),
   ("phone", c.phone.map .vStr)]

/-- `exclude_none` dict of a `CustomerInfo`. -/
def CustomerInfo.toDict (c : CustomerInfo) : Dict := mkDict c.fields

/-- Reconstruct a `CustomerInfo` from a dict. -/
def CustomerInfo.fromDict (d : Dict) : Option CustomerInfo :=
  match parseReq d "name" Val.asStr with
  | none => none
  | some name =>
  match parseOpt d "tax_id" Val.asStr with
  | none => none
  | some tax_id =>
  match parseOpt d "registration_number" Val.asStr with
  | none => none
  | some registration_number =>
  match parseOpt d "address" Val.asStr with
  | none => none
  | some address =>
  match parseOpt d "city" Val.asStr with
  | none => none
  | some city =>
  match parseOpt d "country" Val.asStr with
  | none => none
  | some country =>
  match parseOpt d "phone" Val.asStr with
  | none => none
  | some phone =>
  some ⟨name, tax_id, registration_number, address, city, country, phone⟩

/-- The field list of a serialized `InvoiceLineItem`. -/
def InvoiceLineItem.fields (li : InvoiceLineItem) :
    List (String × Option Val) :=
  [("description", some (.vStr li.description)),
   ("description_ar", li.description_ar.map .vStr),
   ("description_en", li.description_en.map .vStr),
   ("quantity", some (.vNum li.quantity)),
   ("unit_price", some (.vNum li.unit_price)),
   ("unit", li.unit.map .vStr),
   ("discount", some (.vNum li.discount)),
   ("tax_rate", some (.vNum li.tax_rate)),
   ("tax_amount", some (.vNum li.tax_amount)),
   ("line_total", some (.vNum li.line_total)),
   ("item_code", li.item_code.map .vStr)]

/-- `exclude_none` dict of an `InvoiceLineItem`. -/
def InvoiceLineItem.toDict (li : InvoiceLineItem) : Dict := mkDict li.fields

/-- Reconstruct an `InvoiceLineItem` from a dict, applying field defaults
and re-running construction-time validation. -/
def InvoiceLineItem.fromDict (d : Dict) : Option InvoiceLineItem :=
  match parseReq d "description" Val.asStr with
  | none => none
  | some description =>
  match parseOpt d "description_ar" Val.asStr with
  | none => none
  | some description_ar =>
  match parseOpt d "description_en" Val.asStr with
  | none => none
  | some description_en =>
  match parseReq d "quantity" Val.asNum with
  | none => none
  | some quantity =>
  match parseReq d "unit_price" Val.asNum with
  | none => none
  | some unit_price =>
  match parseOpt d "unit" Val.asStr with
  | none => none
  | some unit =>
  match parseDef d "discount" Val.asNum 0 with
  | none => none
  | some discount =>
  match parseDef d "tax_rate" Val.asNum 0 with
  | none => none
  | some tax_rate =>
  match parseDef d "tax_amount" Val.asNum 0 with
  | none => none
  | some tax_amount =>
  match parseReq d "line_total" Val.asNum with
  | none => none
  | some line_total =>
  match parseOpt d "item_code" Val.asStr with
  | none => none
  | some item_code =>
  (InvoiceLineItem.construct ⟨description, description_ar, description_en,
    quantity, unit_price, unit, discount, tax_rate, tax_amount, line_total,
    item_code⟩).toOption

/-- The field list of a serialized `TaxBreakdown` (no optional fields). -/
def TaxBreakdown.fields (t : TaxBreakdown) : List (String × Option Val) :=
  [("tax_type", some (.vStr t.tax_type)),
   ("tax_rate", some (.vNum t.tax_rate)),
   ("taxable_amount", some (.vNum t.taxable_amount)),
   ("tax_amount", some (.vNum t.tax_amount))]

/-- `exclude_none` dict of a `TaxBreakdown`. -/
def TaxBreakdown.toDict (t : TaxBreakdown) : Dict := mkDict t.fields

/-- Reconstruct a `TaxBreakdown` from a dict, re-running validation. -/
def TaxBreakdown.fromDict (d : Dict) : Option TaxBreakdown :=
  match parseReq d "tax_type" Val.asStr with
  | none => none
  | some tax_type =>
  match parseReq d "tax_rate" Val.asNum with
  | none => none
  | some tax_rate =>
  match parseReq d "taxable_amount" Val.asNum with
  | none => none
  | some taxable_amount =>
  match parseReq d "tax_amount" Val.asNum with
  | none => none
  | some tax_amount =>
  (TaxBreakdown.construct ⟨tax_type, tax_rate, taxable_amount,
    tax_amount⟩).toOption

/-- The field list of a serialized `PaymentInfo` (all fields optional). -/
def PaymentInfo.fields (p : PaymentInfo) : List (String × Option Val) :=
  [("payment_method", p.payment_method.map .vStr),
   ("payment_terms", p.payment_terms.map .vStr),
   ("due_date", p.due_date.map .vDate),
   ("bank_name", p.bank_name.map .vStr),
   ("bank_account", p.bank_account.map .vStr),
   ("iban", p.iban.map .vStr),
   ("swift_code", p.swift_code.map .vStr)]

/-- `exclude_none` dict of a `PaymentInfo`. -/
def PaymentInfo.toDict (p : PaymentInfo) : Dict := mkDict p.fields

/-- Reconstruct a `PaymentInfo` from a dict. -/
def PaymentInfo.fromDict (d : Dict) : Option PaymentInfo :=
  match parseOpt d "payment_method" Val.asStr with
  | none => none
  | some payment_method =>
  match parseOpt d "payment_terms" Val.asStr with
  | none => none
  | some payment_terms =>
  match parseOpt d "due_date" Val.asDate with
  | none => none
  | some due_date =>
  match parseOpt d "bank_name" Val.asStr with
  | none => none
  | some bank_name =>
  match parseOpt d "bank_account" Val.asStr with
  | none => none
  | some bank_account =>
  match parseOpt d "iban" Val.asStr with
  | none => none
  | some iban =>
  match parseOpt d "swift_code" Val.asStr with
  | none => none
  | some swift_code =>
  some ⟨payment_method, payment_terms, due_date, bank_name, bank_account,
    iban, swift_code⟩

/-- The field list of a serialized `Invoice`, in declaration order.  Enum
fields appear as their value strings (`use_enum_values = True`). -/
def Invoice.fields (inv : Invoice) : List (String × Option Val) :=
  [("invoice_number", some (.vStr inv.invoice_number)),
   ("invoice_type", some (.vStr inv.invoice_type.value)),
   ("invoice_date", some (.vDate inv.invoice_date)),
   ("currency", some (.vStr inv.currency.value)),
   ("language_detected", some (.vStr inv.language_detected.value)),
   ("vendor", some (.vDict inv.vendor.toDict)),
   ("customer", inv.customer.map fun c => .vDict c.toDict),
   ("line_items", some (.vList (inv.line_items.map fun li => .vDict li.toDict))),
   ("subtotal", some (.vNum inv.subtotal)),
   ("total_discount", some (.vNum inv.total_discount)),
   ("total_tax", some (.vNum inv.total_tax)),
   ("total_amount", some (.vNum inv.total_amount)),
   ("tax_breakdown", inv.tax_breakdown.map fun ts =>
     .vList (ts.map fun t => .vDict t.toDict)),
   ("payment_info", inv.payment_info.map fun p => .vDict p.toDict),
   ("po_number", inv.po_number.map .vStr),
   ("reference_number", inv.reference_number.map .vStr),
   ("notes", inv.notes.map .vStr),
   ("qr_code", inv.qr_code.map .vStr),
   ("confidence_score", some (.vNum inv.confidence_score)),
   ("extraction_timestamp", some (.vDateTime inv.extraction_timestamp)),
   ("source_file", inv.source_file.map .vStr),
   ("page_count", inv.page_count.map .vInt)]

/-- `Invoice.to_dict` (lines 223-225): `self.dict(exclude_none=True)`. -/
def Invoice.toDict (inv : Invoice) : Dict := mkDict inv.fields

/-- Parse and validate each element of a serialized line-item list. -/
def parseItems : List Val → Option (List InvoiceLineItem)
  | [] => some []
  | v :: rest =>
    match v.asDict.bind InvoiceLineItem.fromDict with
    | none => none
    | some li => (parseItems rest).map (li :: ·)

/-- Parse and validate each element of a serialized tax-breakdown list. -/
def parseTBs : List Val → Option (List TaxBreakdown)
  | [] => some []
  | v :: rest =>
    match v.asDict.bind TaxBreakdown.fromDict with
    | none => none
    | some t => (parseTBs rest).map (t :: ·)

/-- Reconstruct an `Invoice` from its key/value tree (`Invoice(**tree)`):
parse every field (applying declared defaults for absent keys;
`extraction_timestamp` defaults to `datetime.now()`, the `now` parameter)
and re-run construction-time validation against `today`. -/
def Invoice.fromDict (today now : Int) (d : Dict) : Option Invoice :=
  match parseReq d "invoice_number" Val.asStr with
  | none => none
  | some invoice_number =>
  match parseDef d "invoice_type"
      (fun v => v.asStr.bind InvoiceType.ofString) .standard with
  | none => none
  | some invoice_type =>
  match parseReq d "invoice_date" Val.asDate with
  | none => none
  | some invoice_date =>
  match parseDef d "currency"
      (fun v => v.asStr.bind Currency.ofString) .SAR with
  | none => none
  | some currency =>
  match parseDef d "language_detected"
      (fun v => v.asStr.bind Language.ofString) .ar with
  | none => none
  | some language_detected =>
  match parseReq d "vendor" (fun v => v.asDict.bind VendorInfo.fromDict) with
  | none => none
  | some vendor =>
  match parseOpt d "customer"
      (fun v => v.asDict.bind CustomerInfo.fromDict) with
  | none => none
  | some customer =>
  match parseReq d "line_items" Val.asList with
  | none => none
  | some items =>
  match parseItems items with
  | none => none
  | some line_items =>
  match parseReq d "subtotal" Val.asNum with
  | none => none
  | some subtotal =>
  match parseDef d "total_discount" Val.asNum 0 with
  | none => none
  | some total_discount =>
  match parseDef d "total_tax" Val.asNum 0 with
  | none => none
  | some total_tax =>
  match parseReq d "total_amount" Val.asNum with
  | none => none
  | some total_amount =>
  match parseOpt d "tax_breakdown" (fun v => v.asList.bind parseTBs) with
  | none => none
  | some tax_breakdown =>
  match parseOpt d "payment_info"
      (fun v => v.asDict.bind PaymentInfo.fromDict) with
  | none => none
  | some payment_info =>
  match parseOpt d "po_number" Val.asStr with
  | none => none
  | some po_number =>
  match parseOpt d "reference_number" Val.asStr with
  | none => none
  | some reference_number =>
  match parseOpt d "notes" Val.asStr with
  | none => none
  | some notes =>
  match parseOpt d "qr_code" Val.asStr with
  | none => none
  | some qr_code =>
  match parseDef d "confidence_score" Val.asNum 0 with
  | none => none
  | some confidence_score =>
  match parseDef d "extraction_timestamp" Val.asDateTime now with
  | none => none
  | some extraction_timestamp =>
  match parseOpt d "source_file" Val.asStr with
  | none => none
  | some source_file =>
  match parseOpt d "page_count" Val.asInt with
  | none => none
  | some page_count =>
  (Invoice.construct today ⟨invoice_number, invoice_type, invoice_date,
    currency, language_detected, vendor, customer, line_items, subtotal,
    total_discount, total_tax, total_amount, tax_breakdown, payment_info,
    po_number, reference_number, notes, qr_code, confidence_score,
    extraction_timestamp, source_file, page_count⟩).toOption

/-! ### Error taxonomy and central translation
(`backend/app/utils/exceptions.py`) -/

/-- A `None`-able string detail value. -/
def optStrVal (o : Option String) : Val := o.elim .vNull .vStr

/-- A `None`-able int detail value. -/
def optIntVal (o : Option Int) : Val := o.elim .vNull .vInt

/-- Python `format(x, ".2f")` on the exact value: round half-even to two
decimal places and render with two fractional digits. -/
def fmt2 (q : ℚ) : String :=
  let s := q * 100
  let fl : Int := ⌊s⌋
  let r : ℚ := s - fl
  let n : Int :=
    if r > 1/2 then fl + 1
    else if r < 1/2 then fl
    else if fl % 2 = 0 then fl else fl + 1
  let a := n.natAbs
  let sign := if n < 0 then "-" else ""
  let frac := a % 100
  sign ++ toString (a / 100) ++ "." ++
    (if frac < 10 then "0" ++ toString frac else toString frac)

/-- The instance state a raised `InvoiceAIException` carries
(exceptions.py lines 9-20): the message, the error code (defaulting to
`"GENERAL_ERROR"` when the subclass passes none) and the details dict
(defaulting to empty). -/
structure ExcData where
  message : String
  error_code : String
  details : List (String × Val)

/-- `InvoiceAIException.__init__` (lines 11-20). -/
def InvoiceAIException.init (message : String) (error_code : Option String)
    (details : Option (List (String × Val))) : ExcData :=
  ⟨message, error_code.getD "GENERAL_ERROR", details.getD []⟩

/-- `InvoiceAIException.to_dict` (lines 22-28): the uniform three-key API
envelope. -/
structure Envelope where
  error : String
  message : String
  details : List (String × Val)

/-- `to_dict` of a carried exception state (lines 22-28). -/
def ExcData.to_dict (e : ExcData) : Envelope :=
  ⟨e.error_code, e.message, e.details⟩

/-- The defined error kinds: one constructor per `InvoiceAIException`
subclass of exceptions.py, carrying exactly the subclass constructor's
arguments (`AuthenticationError`/`AuthorizationError` messages default to
`"Authentication failed"`/`"Insufficient permissions"` at call sites). -/
inductive InvoiceAIError where
  | fileProcessing (message : String) (filename : Option String)
  | unsupportedFileType (file_type : String) (supported_types : List String)
  | ocr (message : String) (image_path : Option String)
  | emptyFile (filename : String)
  | llmExtraction (message : String) (model : Option String)
  | llmTimeout (timeout_seconds : Int)
  | llmRateLimit (retry_after : Option Int)
  | validation (message : String) (field : Option String)
      (validation_errors : Option (List String))
  | lowConfidence (confidence_score threshold : ℚ)
  | erpConnection (message : String) (erp_system : String)
  | erpAuthentication (erp_system : String)
  | erpDataFormat (message : String) (expected_format : Option String)
  | erpTimeout (erp_system : String) (timeout_seconds : Int)
  | duplicateInvoice (invoice_number : String) (existing_id : Option String)
  | customerNotFound (customer_id : String)
  | configuration (message : String) (config_file : Option String)
  | vendorMapping (vendor_name : String) (customer_id : String)
  | authentication (message : String)
  | authorization (message : String) (required_permission : Option String)
  | maxRetriesExceeded (operation : String) (max_retries : Int)

/-- The state each subclass constructor passes to
`InvoiceAIException.__init__` (exceptions.py lines 35-272), message
f-strings and `error_code`/`details` literals included. -/
def InvoiceAIError.data : InvoiceAIError → ExcData
  | .fileProcessing message filename =>
    InvoiceAIException.init message (some "FILE_PROCESSING_ERROR")
      (some [("filename", optStrVal filename)])
  | .unsupportedFileType file_type supported_types =>
    InvoiceAIException.init
      ("File type '" ++ file_type ++ "' is not supported")
      (some "UNSUPPORTED_FILE_TYPE")
      (some [("file_type", .vStr file_type),
             ("supported_types", .vList (supported_types.map .vStr))])
  | .ocr message image_path =>
    InvoiceAIException.init message (some "OCR_ERROR")
      (some [("image_path", optStrVal image_path)])
  | .emptyFile filename =>
    InvoiceAIException.init
      ("File '" ++ filename ++ "' is empty or contains no readable content")
      (some "EMPTY_FILE") (some [("filename", .vStr filename)])
  | .llmExtraction message model =>
    InvoiceAIException.init message (some "LLM_EXTRACTION_ERROR")
      (some [("model", optStrVal model)])
  | .llmTimeout timeout_seconds =>
    InvoiceAIException.init
      ("LLM request timed out after " ++ toString timeout_seconds ++
        " seconds")
      (some "LLM_TIMEOUT")
      (some [("timeout_seconds", .vInt timeout_seconds)])
  | .llmRateLimit retry_after =>
    InvoiceAIException.init "LLM rate limit exceeded" (some "LLM_RATE_LIMIT")
      (some [("retry_after_seconds", optIntVal retry_after)])
  | .validation message field validation_errors =>
    InvoiceAIException.init message (some "VALIDATION_ERROR")
      (some [("field", optStrVal field),
             ("validation_errors",
              .vList ((validation_errors.getD []).map .vStr))])
  | .lowConfidence confidence_score threshold =>
    InvoiceAIException.init
      ("Extraction confidence (" ++ fmt2 confidence_score ++
        ") below threshold (" ++ fmt2 threshold ++ ")")
      (some "LOW_CONFIDENCE")
      (some [("confidence_score", .vNum confidence_score),
             ("threshold", .vNum threshold)])
  | .erpConnection message erp_system =>
    InvoiceAIException.init message (some "ERP_CONNECTION_ERROR")
      (some [("erp_system", .vStr erp_system)])
  | .erpAuthentication erp_system =>
    InvoiceAIException.init ("Authentication failed for " ++ erp_system)
      (some "ERP_AUTH_ERROR") (some [("erp_system", .vStr erp_system)])
  | .erpDataFormat message expected_format =>
    InvoiceAIException.init message (some "ERP_DATA_FORMAT_ERROR")
      (some [("expected_format", optStrVal expected_format)])
  | .erpTimeout erp_system timeout_seconds =>
    InvoiceAIException.init
      ("Connection to " ++ erp_system ++ " timed out after " ++
        toString timeout_seconds ++ " seconds")
      (some "ERP_TIMEOUT")
      (some [("erp_system", .vStr erp_system),
             ("timeout_seconds", .vInt timeout_seconds)])
  | .duplicateInvoice invoice_number existing_id =>
    InvoiceAIException.init
      ("Invoice '" ++ invoice_number ++ "' already exists")
      (some "DUPLICATE_INVOICE")
      (some [("invoice_number", .vStr invoice_number),
             ("existing_id", optStrVal existing_id)])
  | .customerNotFound customer_id =>
    InvoiceAIException.init ("Customer '" ++ customer_id ++ "' not found")
      (some "CUSTOMER_NOT_FOUND")
      (some [("customer_id", .vStr customer_id)])
  | .configuration message config_file =>
    InvoiceAIException.init message (some "CONFIGURATION_ERROR")
      (some [("config_file", optStrVal config_file)])
  | .vendorMapping vendor_name customer_id =>
    InvoiceAIException.init
      ("Vendor '" ++ vendor_name ++ "' not found in mapping for customer '"
        ++ customer_id ++ "'")
      (some "VENDOR_MAPPING_ERROR")
      (some [("vendor_name", .vStr vendor_name),
             ("customer_id", .vStr customer_id)])
  | .authentication message =>
    InvoiceAIException.init message (some "AUTHENTICATION_ERROR") none
  | .authorization message required_permission =>
    InvoiceAIException.init message (some "AUTHORIZATION_ERROR")
      (some [("required_permission", optStrVal required_permission)])
  | .maxRetriesExceeded operation max_retries =>
    InvoiceAIException.init
      ("Operation '" ++ operation ++ "' failed after " ++
        toString max_retries ++ " retries")
      (some "MAX_RETRIES_EXCEEDED")
      (some [("operation", .vStr operation),
             ("max_retries", .vInt max_retries)])

/-- Any raised error value reaching `handle_exception`: either an instance
of a defined `InvoiceAIException` kind, or any other exception, carrying
its runtime type name (`type(exception).__name__`) and its string form
(`str(exception)`). -/
inductive PyError where
  | known (e : InvoiceAIError)
  | other (type_name : String) (str_form : String)

/-- `handle_exception` (exceptions.py lines 279-293): the central
translation function.  A defined kind is translated by its own `to_dict`;
any other exception is downgraded to the generic internal-error envelope.
Totality of this function embeds "never raises/propagates". -/
def handle_exception : PyError → Envelope
  | .known e => e.data.to_dict
  | .other type_name str_form =>
    ⟨"INTERNAL_ERROR", str_form, [("exception_type", .vStr type_name)]⟩

/-- Modelled from the spec (§4.2): the documented stable machine-readable
code string of each defined error kind — an uppercase snake-case
identifier per kind (the spec names `LLM_TIMEOUT` and `DUPLICATE_INVOICE`
explicitly and fixes the rest by the kind list of §4.2 as declared per
kind in the source). -/
def documentedCode : InvoiceAIError → String
  | .fileProcessing .. => "FILE_PROCESSING_ERROR"
  | .unsupportedFileType .. => "UNSUPPORTED_FILE_TYPE"
  | .ocr .. => "OCR_ERROR"
  | .emptyFile .. => "EMPTY_FILE"
  | .llmExtraction .. => "LLM_EXTRACTION_ERROR"
  | .llmTimeout .. => "LLM_TIMEOUT"
  | .llmRateLimit .. => "LLM_RATE_LIMIT"
  | .validation .. => "VALIDATION_ERROR"
  | .lowConfidence .. => "LOW_CONFIDENCE"
  | .erpConnection .. => "ERP_CONNECTION_ERROR"
  | .erpAuthentication .. => "ERP_AUTH_ERROR"
  | .erpDataFormat .. => "ERP_DATA_FORMAT_ERROR"
  | .erpTimeout .. => "ERP_TIMEOUT"
  | .duplicateInvoice .. => "DUPLICATE_INVOICE"
  | .customerNotFound .. => "CUSTOMER_NOT_FOUND"
  | .configuration .. => "CONFIGURATION_ERROR"
  | .vendorMapping .. => "VENDOR_MAPPING_ERROR"
  | .authentication .. => "AUTHENTICATION_ERROR"
  | .authorization .. => "AUTHORIZATION_ERROR"
  | .maxRetriesExceeded .. => "MAX_RETRIES_EXCEEDED"

/-- Modelled from the spec (§4.2): the documented kind-specific detail
keys of each defined error kind ("`FileProcessingError` carries
`filename`; `LLMTimeoutError` carries `timeout_seconds`;
`LowConfidenceError` carries `confidence_score` and `threshold`;
`ERPTimeoutError` carries `erp_system` and `timeout_seconds`", the
unsupported-file kind the attempted type and the supported set, the
rate-limit kind its optional retry-after hint, the validation kind the
field and the sub-error list, the duplicate kind the invoice number and
the optional existing-record identifier, and so on through the §4.2
groups; the security authentication kind carries no detail keys). -/
def documentedDetailKeys : InvoiceAIError → List String
  | .fileProcessing .. => ["filename"]
  | .unsupportedFileType .. => ["file_type", "supported_types"]
  | .ocr .. => ["image_path"]
  | .emptyFile .. => ["filename"]
  | .llmExtraction .. => ["model"]
  | .llmTimeout .. => ["timeout_seconds"]
  | .llmRateLimit .. => ["retry_after_seconds"]
  | .validation .. => ["field", "validation_errors"]
  | .lowConfidence .. => ["confidence_score", "threshold"]
  | .erpConnection .. => ["erp_system"]
  | .erpAuthentication .. => ["erp_system"]
  | .erpDataFormat .. => ["expected_format"]
  | .erpTimeout .. => ["erp_system", "timeout_seconds"]
  | .duplicateInvoice .. => ["invoice_number", "existing_id"]
  | .customerNotFound .. => ["customer_id"]
  | .configuration .. => ["config_file"]
  | .vendorMapping .. => ["vendor_name", "customer_id"]
  | .authentication .. => []
  | .authorization .. => ["required_permission"]
  | .maxRetriesExceeded .. => ["operation", "max_retries"]

/-! ### Post-construction mutability

The pydantic model configuration of `Invoice` (invoice_schema.py lines
227-233) sets only `json_encoders` and `use_enum_values`; it does not
freeze the model or enable assignment validation, so pydantic's defaults
apply: attribute assignment on a constructed instance is permitted and
runs no validator. -/

/-- The mutability-relevant pydantic model configuration: `frozen`
defaults to false (pydantic's default; v1 spelling `allow_mutation =
True`). -/
structure ModelConfig where
  use_enum_values : Bool
  frozen : Bool

/-- `Invoice.Config` (lines 227-233): sets `use_enum_values = True` only,
leaving mutability at the pydantic default (not frozen). -/
def invoiceModelConfig : ModelConfig := ⟨true, false⟩

/-- Attribute assignment `instance.field = value` on a constructed model,
as a state transformer: with `frozen` unset pydantic performs the
in-place update (and, without `validate_assignment`, re-runs no
validator); a frozen model would raise instead (`none`). -/
def setAttr (cfg : ModelConfig) (x : α) (upd : α → α) : Option α :=
  if cfg.frozen then none else some (upd x)


/-! ### Characterizing successful construction -/

deriving instance DecidableEq for Except

theorem check_eq_ok {α : Type} {b : Prop} [Decidable b] {err : VErr}
    {k : Except VErr α} {x : α} :
    check b err k = .ok x ↔ b ∧ k = .ok x := by
  unfold check
  split_ifs with h <;> simp [h]

theorem andThen_eq_ok {α β : Type} {r : Except VErr β} {k : Except VErr α}
    {x : α} :
    andThen r k = .ok x ↔ (∃ w, r = .ok w) ∧ k = .ok x := by
  cases r <;> simp [andThen]

theorem validate_line_total_eq_ok
    {quantity unit_price discount tax_amount v w : ℚ} :
    validate_line_total quantity unit_price discount tax_amount v = .ok w ↔
      w = v ∧
      |quantity * unit_price - discount + tax_amount - v| ≤ 1/100 := by
  unfold validate_line_total
  split_ifs with h1
  · exact ⟨fun h => absurd h (by simp),
      fun ⟨_, hd⟩ => absurd hd (not_le_of_lt h1)⟩
  · constructor
    · intro h
      injection h with h'
      subst h'
      exact ⟨rfl, le_of_not_lt h1⟩
    · rintro ⟨heq, _⟩
      subst heq
      rfl

/-- All checks run for an `InvoiceLineItem` at construction. -/
def InvoiceLineItem.Ok (li : InvoiceLineItem) : Prop :=
  0 < li.quantity ∧ 0 ≤ li.discount ∧ 0 ≤ li.tax_rate ∧ 0 ≤ li.tax_amount ∧
  |li.quantity * li.unit_price - li.discount + li.tax_amount -
    li.line_total| ≤ 1/100

instance (li : InvoiceLineItem) : Decidable li.Ok := by
  unfold InvoiceLineItem.Ok; infer_instance

theorem lineItem_construct_eq_ok {li x : InvoiceLineItem} :
    li.construct = .ok x ↔ x = li ∧ li.Ok := by
  unfold InvoiceLineItem.construct InvoiceLineItem.Ok
  rw [check_eq_ok, check_eq_ok, check_eq_ok, check_eq_ok, andThen_eq_ok]
  constructor
  · rintro ⟨h1, h2, h3, h4, ⟨w, hw⟩, hok⟩
    injection hok with h'
    exact ⟨h'.symm, h1, h2, h3, h4,
      (validate_line_total_eq_ok.mp hw).2⟩
  · rintro ⟨heq, h1, h2, h3, h4, h5⟩
    subst heq
    exact ⟨h1, h2, h3, h4,
      ⟨_, validate_line_total_eq_ok.mpr ⟨rfl, h5⟩⟩, rfl⟩

theorem InvoiceLineItem.construct_self {li : InvoiceLineItem} (h : li.Ok) :
    li.construct = .ok li :=
  lineItem_construct_eq_ok.mpr ⟨rfl, h⟩

/-- All checks run for a `TaxBreakdown` at construction. -/
def TaxBreakdown.Ok (t : TaxBreakdown) : Prop :=
  0 ≤ t.tax_rate ∧ 0 ≤ t.taxable_amount ∧ 0 ≤ t.tax_amount

instance (t : TaxBreakdown) : Decidable t.Ok := by
  unfold TaxBreakdown.Ok; infer_instance

theorem taxBreakdown_construct_eq_ok {t x : TaxBreakdown} :
    t.construct = .ok x ↔ x = t ∧ t.Ok := by
  unfold TaxBreakdown.construct TaxBreakdown.Ok
  rw [check_eq_ok, check_eq_ok, check_eq_ok]
  constructor
  · rintro ⟨h1, h2, h3, hok⟩
    injection hok with h'
    exact ⟨h'.symm, h1, h2, h3⟩
  · rintro ⟨heq, h1, h2, h3⟩
    subst heq
    exact ⟨h1, h2, h3, rfl⟩

theorem validate_date_eq_ok {today v w : Int} :
    validate_date today v = .ok w ↔ w = v ∧ (today < v → v - today ≤ 30) := by
  unfold validate_date
  split_ifs with h1 h2
  · exact ⟨fun h => absurd h (by simp),
      fun ⟨_, hd⟩ => absurd (hd h1) (by omega)⟩
  · constructor
    · intro h
      injection h with h'
      subst h'
      exact ⟨rfl, fun _ => by omega⟩
    · rintro ⟨heq, _⟩
      subst heq
      rfl
  · constructor
    · intro h
      injection h with h'
      subst h'
      exact ⟨rfl, fun hc => absurd hc h1⟩
    · rintro ⟨heq, _⟩
      subst heq
      rfl

theorem validateItems_eq_ok {l : List InvoiceLineItem} :
    validateItems l = .ok () ↔ ∀ li ∈ l, li.Ok := by
  induction l with
  | nil => simp [validateItems]
  | cons li rest ih =>
    unfold validateItems
    cases h : li.construct with
    | error e =>
      simp only [List.mem_cons]
      constructor
      · intro hc
        exact Except.noConfusion hc
      · intro hall
        have hok : li.construct = .ok li :=
          InvoiceLineItem.construct_self (hall li (Or.inl rfl))
        rw [h] at hok
        exact Except.noConfusion hok
    | ok y =>
      obtain ⟨rfl, hOk⟩ := lineItem_construct_eq_ok.mp h
      simp only [List.mem_cons, ih]
      constructor
      · intro hr z hz
        rcases hz with rfl | hz
        · exact hOk
        · exact hr z hz
      · intro hall z hz
        exact hall z (Or.inr hz)

theorem validate_total_eq_ok {subtotal total_discount total_tax v w : ℚ} :
    validate_total subtotal total_discount total_tax v = .ok w ↔
      w = v ∧ |subtotal - total_discount + total_tax - v| ≤ 1/100 := by
  unfold validate_total
  split_ifs with h1
  · exact ⟨fun h => absurd h (by simp),
      fun ⟨_, hd⟩ => absurd hd (not_le_of_lt h1)⟩
  · constructor
    · intro h
      injection h with h'
      subst h'
      exact ⟨rfl, le_of_not_lt h1⟩
    · rintro ⟨heq, _⟩
      subst heq
      rfl

/-- All checks run for the optional tax-breakdown list. -/
def TBsOk : Option (List TaxBreakdown) → Prop
  | none => True
  | some l => ∀ t ∈ l, t.Ok

instance (o : Option (List TaxBreakdown)) : Decidable (TBsOk o) := by
  cases o <;> (unfold TBsOk; infer_instance)

theorem validateTaxBreakdowns_eq_ok {o : Option (List TaxBreakdown)} :
    validateTaxBreakdowns o = .ok () ↔ TBsOk o := by
  cases o with
  | none => simp [validateTaxBreakdowns, TBsOk]
  | some l =>
    induction l with
    | nil => simp [validateTaxBreakdowns, TBsOk]
    | cons t rest ih =>
      unfold validateTaxBreakdowns
      cases h : t.construct with
      | error e =>
        simp only [TBsOk, List.mem_cons]
        constructor
        · intro hc
          exact Except.noConfusion hc
        · intro hall
          have hok : t.construct = .ok t :=
            taxBreakdown_construct_eq_ok.mpr ⟨rfl, hall t (Or.inl rfl)⟩
          rw [h] at hok
          exact Except.noConfusion hok
      | ok y =>
        obtain ⟨rfl, hOk⟩ := taxBreakdown_construct_eq_ok.mp h
        simp only [TBsOk, List.mem_cons] at ih ⊢
        rw [ih]
        constructor
        · intro hr z hz
          rcases hz with rfl | hz
          · exact hOk
          · exact hr z hz
        · intro hall z hz
          exact hall z (Or.inr hz)

/-- The invoice-date check of `validate_date`, as a predicate. -/
def Invoice.DateOk (today : Int) (inv : Invoice) : Prop :=
  today < inv.invoice_date → inv.invoice_date - today ≤ 30

instance (today : Int) (inv : Invoice) : Decidable (inv.DateOk today) := by
  unfold Invoice.DateOk; infer_instance

/-- Every construction-time check of an `Invoice` other than the date
check. -/
def Invoice.RestOk (inv : Invoice) : Prop :=
  1 ≤ inv.line_items.length ∧
  (∀ li ∈ inv.line_items, li.Ok) ∧
  0 ≤ inv.subtotal ∧ 0 ≤ inv.total_discount ∧ 0 ≤ inv.total_tax ∧
  0 ≤ inv.total_amount ∧
  |inv.subtotal - inv.total_discount + inv.total_tax -
    inv.total_amount| ≤ 1/100 ∧
  TBsOk inv.tax_breakdown ∧
  0 ≤ inv.confidence_score ∧ inv.confidence_score ≤ 1

instance (inv : Invoice) : Decidable inv.RestOk := by
  unfold Invoice.RestOk; infer_instance

theorem invoice_construct_eq_ok {today : Int} {inv x : Invoice} :
    inv.construct today = .ok x ↔ x = inv ∧ inv.DateOk today ∧ inv.RestOk := by
  unfold Invoice.construct Invoice.RestOk Invoice.DateOk
  rw [andThen_eq_ok, check_eq_ok, andThen_eq_ok, check_eq_ok, check_eq_ok,
    check_eq_ok, check_eq_ok, andThen_eq_ok, andThen_eq_ok, check_eq_ok]
  constructor
  · rintro ⟨⟨w, hw⟩, hlen, ⟨u, hi⟩, hsub, hdisc, htax, htot, ⟨w2, hw2⟩,
      ⟨u2, ht⟩, ⟨hc0, hc1⟩, hok⟩
    injection hok with h'
    cases u
    cases u2
    exact ⟨h'.symm, (validate_date_eq_ok.mp hw).2, hlen,
      validateItems_eq_ok.mp hi, hsub, hdisc, htax, htot,
      (validate_total_eq_ok.mp hw2).2, validateTaxBreakdowns_eq_ok.mp ht,
      hc0, hc1⟩
  · rintro ⟨heq, hD, hlen, hli, hsub, hdisc, htax, htot, hmis, htb, hc0, hc1⟩
    subst heq
    exact ⟨⟨_, validate_date_eq_ok.mpr ⟨rfl, hD⟩⟩, hlen,
      ⟨(), validateItems_eq_ok.mpr hli⟩, hsub, hdisc, htax, htot,
      ⟨_, validate_total_eq_ok.mpr ⟨rfl, hmis⟩⟩,
      ⟨(), validateTaxBreakdowns_eq_ok.mpr htb⟩, ⟨hc0, hc1⟩, rfl⟩

/-! ### Round-tripping serialization -/

theorem mkDict_nil : mkDict [] = [] := rfl

theorem mkDict_cons_none {k : String} {fs : List (String × Option Val)} :
    mkDict ((k, none) :: fs) = mkDict fs := rfl

theorem mkDict_cons_some {k : String} {v : Val}
    {fs : List (String × Option Val)} :
    mkDict ((k, some v) :: fs) = (k, v) :: mkDict fs := rfl

theorem lookup_eq_none_of_not_mem {β : Type} {k : String} :
    ∀ {l : List (String × β)}, k ∉ l.map Prod.fst → l.lookup k = none := by
  intro l hk
  rw [List.lookup_eq_none_iff]
  intro p hp
  rw [bne_iff_ne]
  intro hcontra
  exact hk (hcontra ▸ List.mem_map_of_mem Prod.fst hp)

theorem lookup_mkDict_eq_none {k : String} :
    ∀ {fs : List (String × Option Val)}, k ∉ fs.map Prod.fst →
      (mkDict fs).lookup k = none := by
  intro fs
  induction fs with
  | nil => intro _; rfl
  | cons p rest ih =>
    obtain ⟨k', o⟩ := p
    intro hk
    simp only [List.map_cons, List.mem_cons, not_or] at hk
    cases o with
    | none => exact ih hk.2
    | some v =>
      rw [mkDict_cons_some, List.lookup_cons]
      have hbeq : (k == k') = false := beq_eq_false_iff_ne.mpr hk.1
      rw [hbeq]
      exact ih hk.2

/-- Looking a key up in the `exclude_none` dict of a field list with
pairwise-distinct keys is looking it up in the field list and flattening. -/
theorem lookup_mkDict {k : String} :
    ∀ {fs : List (String × Option Val)}, (fs.map Prod.fst).Nodup →
      (mkDict fs).lookup k = (fs.lookup k).bind id := by
  intro fs
  induction fs with
  | nil => intro _; rfl
  | cons p rest ih =>
    obtain ⟨k', o⟩ := p
    intro hnd
    simp only [List.map_cons, List.nodup_cons] at hnd
    obtain ⟨hk', hrest⟩ := hnd
    cases o with
    | none =>
      rw [mkDict_cons_none, List.lookup_cons, ih hrest]
      cases hbeq : k == k' with
      | true =>
        have hkk : k = k' := beq_iff_eq.mp hbeq
        subst hkk
        rw [lookup_eq_none_of_not_mem hk']
        rfl
      | false => rfl
    | some v =>
      rw [mkDict_cons_some, List.lookup_cons, List.lookup_cons]
      cases hbeq : k == k' with
      | true => rfl
      | false => exact ih hrest

theorem parseOptVal_map_vStr (o : Option String) :
    parseOptVal Val.asStr (o.map Val.vStr) = some o := by
  cases o <;> rfl

theorem parseOptVal_map_vInt (o : Option Int) :
    parseOptVal Val.asInt (o.map Val.vInt) = some o := by
  cases o <;> rfl

theorem parseOptVal_map_vDate (o : Option Int) :
    parseOptVal Val.asDate (o.map Val.vDate) = some o := by
  cases o <;> rfl

theorem vendor_keys_fields (v : VendorInfo) :
    v.fields.map Prod.fst =
      ["name", "name_ar", "name_en", "tax_id", "registration_number",
       "address", "city", "country", "phone", "email", "website",
       "mapped_vendor_code"] := rfl

theorem vendor_lookup_toDict (v : VendorInfo) (k : String) :
    v.toDict.lookup k = (v.fields.lookup k).bind id :=
  lookup_mkDict (by rw [vendor_keys_fields]; decide)

theorem vendor_fromDict_toDict (v : VendorInfo) :
    VendorInfo.fromDict v.toDict = some v := by
  simp [VendorInfo.fromDict, parseReq, parseOpt, vendor_lookup_toDict,
    VendorInfo.fields, List.lookup_cons, parseOptVal_map_vStr, Val.asStr]

theorem customer_keys_fields (c : CustomerInfo) :
    c.fields.map Prod.fst =
      ["name", "tax_id", "registration_number", "address", "city",
       "country", "phone"] := rfl

theorem customer_lookup_toDict (c : CustomerInfo) (k : String) :
    c.toDict.lookup k = (c.fields.lookup k).bind id :=
  lookup_mkDict (by rw [customer_keys_fields]; decide)

theorem customer_fromDict_toDict (c : CustomerInfo) :
    CustomerInfo.fromDict c.toDict = some c := by
  simp [CustomerInfo.fromDict, parseReq, parseOpt, customer_lookup_toDict,
    CustomerInfo.fields, List.lookup_cons, parseOptVal_map_vStr, Val.asStr]

theorem payment_keys_fields (p : PaymentInfo) :
    p.fields.map Prod.fst =
      ["payment_method", "payment_terms", "due_date", "bank_name",
       "bank_account", "iban", "swift_code"] := rfl

theorem payment_lookup_toDict (p : PaymentInfo) (k : String) :
    p.toDict.lookup k = (p.fields.lookup k).bind id :=
  lookup_mkDict (by rw [payment_keys_fields]; decide)

theorem payment_fromDict_toDict (p : PaymentInfo) :
    PaymentInfo.fromDict p.toDict = some p := by
  simp [PaymentInfo.fromDict, parseOpt, payment_lookup_toDict,
    PaymentInfo.fields, List.lookup_cons, parseOptVal_map_vStr,
    parseOptVal_map_vDate, Val.asStr, Val.asDate]

theorem taxBreakdown_keys_fields (t : TaxBreakdown) :
    t.fields.map Prod.fst =
      ["tax_type", "tax_rate", "taxable_amount", "tax_amount"] := rfl

theorem taxBreakdown_lookup_toDict (t : TaxBreakdown) (k : String) :
    t.toDict.lookup k = (t.fields.lookup k).bind id :=
  lookup_mkDict (by rw [taxBreakdown_keys_fields]; decide)

theorem taxBreakdown_fromDict_toDict (t : TaxBreakdown) (h : t.Ok) :
    TaxBreakdown.fromDict t.toDict = some t := by
  have hc : t.construct = .ok t := taxBreakdown_construct_eq_ok.mpr ⟨rfl, h⟩
  simp [TaxBreakdown.fromDict, parseReq, taxBreakdown_lookup_toDict,
    TaxBreakdown.fields, List.lookup_cons, Val.asStr, Val.asNum, hc,
    Except.toOption]

theorem lineItem_keys_fields (li : InvoiceLineItem) :
    li.fields.map Prod.fst =
      ["description", "description_ar", "description_en", "quantity",
       "unit_price", "unit", "discount", "tax_rate", "tax_amount",
       "line_total", "item_code"] := rfl

theorem lineItem_lookup_toDict (li : InvoiceLineItem) (k : String) :
    li.toDict.lookup k = (li.fields.lookup k).bind id :=
  lookup_mkDict (by rw [lineItem_keys_fields]; decide)

theorem lineItem_fromDict_toDict (li : InvoiceLineItem) (h : li.Ok) :
    InvoiceLineItem.fromDict li.toDict = some li := by
  have hc : li.construct = .ok li := InvoiceLineItem.construct_self h
  simp [InvoiceLineItem.fromDict, parseReq, parseOpt, parseDef,
    lineItem_lookup_toDict, InvoiceLineItem.fields, List.lookup_cons,
    parseOptVal_map_vStr, Val.asStr, Val.asNum, hc, Except.toOption]

theorem invoiceType_ofString_value (t : InvoiceType) :
    InvoiceType.ofString t.value = some t := by
  cases t <;> rfl

theorem currency_ofString_value (c : Currency) :
    Currency.ofString c.value = some c := by
  cases c <;> rfl

theorem language_ofString_value (l : Language) :
    Language.ofString l.value = some l := by
  cases l <;> rfl

theorem parseOptVal_customer (o : Option CustomerInfo) :
    parseOptVal (fun v => v.asDict.bind CustomerInfo.fromDict)
      (o.map fun c => Val.vDict c.toDict) = some o := by
  cases o with
  | none => rfl
  | some c =>
    show (CustomerInfo.fromDict c.toDict).map some = some (some c)
    rw [customer_fromDict_toDict]
    rfl

theorem parseOptVal_payment (o : Option PaymentInfo) :
    parseOptVal (fun v => v.asDict.bind PaymentInfo.fromDict)
      (o.map fun p => Val.vDict p.toDict) = some o := by
  cases o with
  | none => rfl
  | some p =>
    show (PaymentInfo.fromDict p.toDict).map some = some (some p)
    rw [payment_fromDict_toDict]
    rfl

theorem parseTBs_map (l : List TaxBreakdown) (h : ∀ t ∈ l, t.Ok) :
    parseTBs (l.map fun t => Val.vDict t.toDict) = some l := by
  induction l with
  | nil => rfl
  | cons t rest ih =>
    simp only [List.map_cons]
    unfold parseTBs
    rw [show (Val.vDict t.toDict).asDict.bind TaxBreakdown.fromDict =
      some t from
        taxBreakdown_fromDict_toDict t (h t (List.mem_cons_self t rest))]
    rw [ih fun z hz => h z (List.mem_cons_of_mem t hz)]
    rfl

theorem parseOptVal_tb (o : Option (List TaxBreakdown)) (h : TBsOk o) :
    parseOptVal (fun v => v.asList.bind parseTBs)
      (o.map fun ts => Val.vList (ts.map fun t => Val.vDict t.toDict)) =
      some o := by
  cases o with
  | none => rfl
  | some l =>
    show ((parseTBs (l.map fun t => Val.vDict t.toDict)).map some) =
      some (some l)
    rw [parseTBs_map l h]
    rfl

theorem parseItems_map (l : List InvoiceLineItem) (h : ∀ li ∈ l, li.Ok) :
    parseItems (l.map fun li => Val.vDict li.toDict) = some l := by
  induction l with
  | nil => rfl
  | cons li rest ih =>
    simp only [List.map_cons]
    unfold parseItems
    rw [show (Val.vDict li.toDict).asDict.bind InvoiceLineItem.fromDict =
      some li from
        lineItem_fromDict_toDict li (h li (List.mem_cons_self li rest))]
    rw [ih fun z hz => h z (List.mem_cons_of_mem li hz)]
    rfl

theorem Val.asList_vList (xs : List Val) :
    (Val.vList xs).asList = some xs := rfl

theorem parseVendor (v : VendorInfo) :
    (Val.vDict v.toDict).asDict.bind VendorInfo.fromDict = some v :=
  vendor_fromDict_toDict v

theorem invoice_keys_fields (inv : Invoice) :
    inv.fields.map Prod.fst =
      ["invoice_number", "invoice_type", "invoice_date", "currency",
       "language_detected", "vendor", "customer", "line_items", "subtotal",
       "total_discount", "total_tax", "total_amount", "tax_breakdown",
       "payment_info", "po_number", "reference_number", "notes", "qr_code",
       "confidence_score", "extraction_timestamp", "source_file",
       "page_count"] := rfl

theorem invoice_lookup_toDict (inv : Invoice) (k : String) :
    inv.toDict.lookup k = (inv.fields.lookup k).bind id :=
  lookup_mkDict (by rw [invoice_keys_fields]; decide)

/-- Serialize-then-reconstruct is the identity on any invoice accepted by
construction-time validation (evaluated at the same `today`). -/
theorem invoice_fromDict_toDict (today now : Int) (inv : Invoice)
    (h : inv.construct today = .ok inv) :
    Invoice.fromDict today now inv.toDict = some inv := by
  obtain ⟨-, hD, hR⟩ := invoice_construct_eq_ok.mp h
  have hitems : ∀ li ∈ inv.line_items, li.Ok := by
    unfold Invoice.RestOk at hR
    exact hR.2.1
  have htb : TBsOk inv.tax_breakdown := by
    unfold Invoice.RestOk at hR
    exact hR.2.2.2.2.2.2.2.1
  simp [Invoice.fromDict, parseReq, parseOpt, parseDef,
    invoice_lookup_toDict, Invoice.fields, List.lookup_cons,
    Val.asStr, Val.asNum, Val.asDate, Val.asDateTime, Val.asInt,
    Val.asList_vList,
    invoiceType_ofString_value, currency_ofString_value,
    language_ofString_value, parseVendor,
    parseOptVal_map_vStr, parseOptVal_map_vInt, parseOptVal_customer,
    parseOptVal_payment, parseOptVal_tb inv.tax_breakdown htb,
    parseItems_map inv.line_items hitems, h, Except.toOption]

/-! ### Error identity on failing construction -/

theorem check_pos {α : Type} {b : Prop} [Decidable b] (hb : b) (err : VErr)
    (k : Except VErr α) : check b err k = k := by
  unfold check
  exact if_pos hb

theorem check_neg {α : Type} {b : Prop} [Decidable b] (hb : ¬ b) (err : VErr)
    (k : Except VErr α) : check b err k = .error err := by
  unfold check
  exact if_neg hb

theorem andThen_ok {α β : Type} {r : Except VErr β} {w : β}
    (h : r = .ok w) (k : Except VErr α) : andThen r k = k := by
  rw [h]
  rfl

theorem andThen_error {α β : Type} {r : Except VErr β} {e : VErr}
    (h : r = .error e) (k : Except VErr α) :
    andThen r k = .error e := by
  rw [h]
  rfl

/-- A line-item reconciliation failure (the prior field constraints
holding) surfaces as the `lineTotalMismatch` error carrying the expected
and the actual value. -/
theorem InvoiceLineItem.construct_mismatch {li : InvoiceLineItem}
    (h1 : 0 < li.quantity) (h2 : 0 ≤ li.discount) (h3 : 0 ≤ li.tax_rate)
    (h4 : 0 ≤ li.tax_amount)
    (hm : |li.quantity * li.unit_price - li.discount + li.tax_amount -
      li.line_total| > 1/100) :
    li.construct = .error (.lineTotalMismatch
      (li.quantity * li.unit_price - li.discount + li.tax_amount)
      li.line_total) := by
  unfold InvoiceLineItem.construct
  rw [check_pos h1, check_pos h2, check_pos h3, check_pos h4]
  apply andThen_error
  unfold validate_line_total
  rw [if_pos hm]

/-- A too-far-future invoice date fails construction with the
`dateTooFar` error, regardless of every other field. -/
theorem Invoice.construct_dateTooFar {today : Int} {inv : Invoice}
    (h : inv.invoice_date - today > 30) :
    inv.construct today = .error (.dateTooFar inv.invoice_date) := by
  unfold Invoice.construct
  apply andThen_error
  unfold validate_date
  rw [if_pos (by omega : inv.invoice_date > today), if_pos h]

/-- An invoice-total reconciliation failure (all earlier checks holding)
surfaces as the `totalMismatch` error carrying the expected and the actual
value. -/
theorem Invoice.construct_totalMismatch {today : Int} {inv : Invoice}
    (hD : inv.DateOk today) (hlen : 1 ≤ inv.line_items.length)
    (hli : ∀ li ∈ inv.line_items, li.Ok)
    (hsub : 0 ≤ inv.subtotal) (hdisc : 0 ≤ inv.total_discount)
    (htax : 0 ≤ inv.total_tax) (htot : 0 ≤ inv.total_amount)
    (hm : |inv.subtotal - inv.total_discount + inv.total_tax -
      inv.total_amount| > 1/100) :
    inv.construct today = .error (.totalMismatch
      (inv.subtotal - inv.total_discount + inv.total_tax)
      inv.total_amount) := by
  unfold Invoice.construct
  rw [andThen_ok (validate_date_eq_ok.mpr ⟨rfl, hD⟩), check_pos hlen,
    andThen_ok (validateItems_eq_ok.mpr hli), check_pos hsub,
    check_pos hdisc, check_pos htax, check_pos htot]
  apply andThen_error
  unfold validate_total
  rw [if_pos hm]

/-! ### Concrete fixtures -/

/-- The spec's concrete line-item scenario:
quantity 2, unit price 100.00, discount 0, tax rate 15, tax amount 30.00,
line total 230.00. -/
def li230 : InvoiceLineItem :=
  ⟨"Widget", none, none, 2, 100, none, 0, 15, 30, 230, none⟩

/-- The same item with `line_total` changed to 235.00. -/
def li235 : InvoiceLineItem :=
  ⟨"Widget", none, none, 2, 100, none, 0, 15, 30, 235, none⟩

/-- A minimal vendor. -/
def vendor0 : VendorInfo :=
  ⟨"ACME", none, none, none, none, none, none, none, none, none, none, none⟩

/-- A concrete invoice passing every construction-time check at
`today = 20000` (its date is 10 days ahead). -/
def inv0 : Invoice :=
  ⟨"INV-1", .standard, 20010, .SAR, .ar, vendor0, none, [li230], 200, 0, 30,
   230, none, none, none, none, none, none, 0, 777, none, none⟩

/-- `inv0` dated exactly 30 days after `today = 20000`. -/
def inv30 : Invoice := { inv0 with invoice_date := 20030 }

/-- `inv0` dated 31 days after `today = 20000`. -/
def inv31 : Invoice := { inv0 with invoice_date := 20031 }

/-- `inv0` with `total_amount` changed to 300 (expected 200 − 0 + 30 = 230). -/
def invBad : Invoice := { inv0 with total_amount := 300 }

/-- `inv0` with an empty line-item list. -/
def invEmpty : Invoice := { inv0 with line_items := [] }

/-! ### Fixture facts -/

theorem li230_Ok : li230.Ok := by
  unfold InvoiceLineItem.Ok li230
  norm_num

theorem li230_construct : li230.construct = .ok li230 :=
  InvoiceLineItem.construct_self li230_Ok

theorem inv0_items_Ok : ∀ li ∈ inv0.line_items, li.Ok := by
  intro li hli
  rw [show inv0.line_items = [li230] from rfl, List.mem_singleton] at hli
  subst hli
  exact li230_Ok

theorem inv0_RestOk : inv0.RestOk := by
  unfold Invoice.RestOk
  refine ⟨by decide, inv0_items_Ok, by decide, by decide, by decide,
    by decide, by norm_num [inv0], by decide, by decide, by decide⟩

theorem inv0_construct : Invoice.construct 20000 inv0 = .ok inv0 :=
  invoice_construct_eq_ok.mpr ⟨rfl, by decide, inv0_RestOk⟩

theorem inv30_RestOk : inv30.RestOk := by
  unfold Invoice.RestOk
  refine ⟨by decide, ?_, by decide, by decide, by decide, by decide,
    by norm_num [inv30, inv0], by decide, by decide, by decide⟩
  intro li hli
  rw [show inv30.line_items = [li230] from rfl, List.mem_singleton] at hli
  subst hli
  exact li230_Ok

/-! ### The claims -/

/-- C1: For every `Invoice` construction input, construction succeeds only
if `|total_amount − (subtotal − total_discount + total_tax)| ≤ 0.01` in
exact decimal arithmetic; if the difference exceeds 0.01 construction
fails, and — whenever the earlier checks pass, so that the
`validate_total` reconciliation is the failing check — it fails with the
validation error naming the expected and the actual value. -/
theorem claim_C1 (today : Int) (inv : Invoice) :
    (∀ x, inv.construct today = .ok x →
      |inv.total_amount -
        (inv.subtotal - inv.total_discount + inv.total_tax)| ≤ 1/100) ∧
    (|inv.total_amount -
        (inv.subtotal - inv.total_discount + inv.total_tax)| > 1/100 →
      (∀ x, inv.construct today ≠ .ok x) ∧
      (inv.DateOk today → 1 ≤ inv.line_items.length →
        (∀ li ∈ inv.line_items, li.Ok) →
        0 ≤ inv.subtotal → 0 ≤ inv.total_discount → 0 ≤ inv.total_tax →
        0 ≤ inv.total_amount →
        inv.construct today = .error (.totalMismatch
          (inv.subtotal - inv.total_discount + inv.total_tax)
          inv.total_amount))) := by
  constructor
  · intro x hx
    obtain ⟨-, -, hR⟩ := invoice_construct_eq_ok.mp hx
    unfold Invoice.RestOk at hR
    rw [abs_sub_comm]
    exact hR.2.2.2.2.2.2.1
  · intro hm
    rw [abs_sub_comm] at hm
    constructor
    · intro x hx
      obtain ⟨-, -, hR⟩ := invoice_construct_eq_ok.mp hx
      unfold Invoice.RestOk at hR
      exact absurd hR.2.2.2.2.2.2.1 (not_le_of_lt hm)
    · intro hD hlen hli hsub hdisc htax htot
      exact Invoice.construct_totalMismatch hD hlen hli hsub hdisc htax
        htot hm

/-- Witness for C1 at `invBad` (expected 230, declared total 300). -/
theorem claim_C1_witness :
    Invoice.construct 20000 invBad = .error (.totalMismatch 230 300) := by
  rw [show (230:ℚ) = invBad.subtotal - invBad.total_discount +
      invBad.total_tax from by norm_num [invBad, inv0],
    show (300:ℚ) = invBad.total_amount from by norm_num [invBad, inv0]]
  refine ((claim_C1 20000 invBad).2 (by norm_num [invBad, inv0])).2
    (by decide) (by decide) ?_ (by decide) (by decide) (by decide)
    (by decide)
  intro li hli
  rw [show invBad.line_items = [li230] from rfl, List.mem_singleton] at hli
  subst hli
  exact li230_Ok

/-- C2: For every `InvoiceLineItem` construction input, construction
succeeds only if
`|line_total − (quantity·unit_price − discount + tax_amount)| ≤ 0.01`; a
violation by more than 0.01 fails construction, with the validation error
naming the expected and the actual value whenever the four declared field
constraints pass (so that the reconciliation is the failing check).  In
particular the item with quantity 2, unit price 100.00, discount 0, tax
rate 15, tax amount 30.00 and line total 230.00 is accepted, and the same
item with line total 235.00 is rejected with expected 230.00, got
235.00. -/
theorem claim_C2 :
    (∀ li x : InvoiceLineItem, li.construct = .ok x →
      |li.line_total - (li.quantity * li.unit_price - li.discount +
        li.tax_amount)| ≤ 1/100) ∧
    (∀ li : InvoiceLineItem,
      |li.line_total - (li.quantity * li.unit_price - li.discount +
        li.tax_amount)| > 1/100 →
      (∀ x, li.construct ≠ .ok x) ∧
      (0 < li.quantity → 0 ≤ li.discount → 0 ≤ li.tax_rate →
        0 ≤ li.tax_amount →
        li.construct = .error (.lineTotalMismatch
          (li.quantity * li.unit_price - li.discount + li.tax_amount)
          li.line_total))) ∧
    li230.construct = .ok li230 ∧
    li235.construct = .error (.lineTotalMismatch 230 235) := by
  refine ⟨?_, ?_, li230_construct, ?_⟩
  · intro li x hx
    obtain ⟨-, hOk⟩ := lineItem_construct_eq_ok.mp hx
    unfold InvoiceLineItem.Ok at hOk
    rw [abs_sub_comm]
    exact hOk.2.2.2.2
  · intro li hm
    rw [abs_sub_comm] at hm
    constructor
    · intro x hx
      obtain ⟨-, hOk⟩ := lineItem_construct_eq_ok.mp hx
      unfold InvoiceLineItem.Ok at hOk
      exact absurd hOk.2.2.2.2 (not_le_of_lt hm)
    · intro h1 h2 h3 h4
      exact InvoiceLineItem.construct_mismatch h1 h2 h3 h4 hm
  · rw [show (230:ℚ) = li235.quantity * li235.unit_price - li235.discount +
        li235.tax_amount from by norm_num [li235],
      show (235:ℚ) = li235.line_total from by norm_num [li235]]
    exact InvoiceLineItem.construct_mismatch (by norm_num [li235])
      (by norm_num [li235]) (by norm_num [li235]) (by norm_num [li235])
      (by norm_num [li235])

/-- Witness for C2 at the spec's concrete item with line total 235.00. -/
theorem claim_C2_witness :
    li235.construct = .error (.lineTotalMismatch 230 235) ∧
    li230.construct = .ok li230 := by
  constructor
  · rw [show (230:ℚ) = li235.quantity * li235.unit_price - li235.discount +
        li235.tax_amount from by norm_num [li235],
      show (235:ℚ) = li235.line_total from by norm_num [li235]]
    exact (claim_C2.2.1 li235 (by norm_num [li235])).2 (by norm_num [li235])
      (by norm_num [li235]) (by norm_num [li235]) (by norm_num [li235])
  · exact claim_C2.2.2.1

/-- C3: An invoice dated more than 30 days after the validation-time
current date fails construction (with the date error); one dated exactly
30 days ahead succeeds when all other constraints hold; one dated 31 days
ahead fails. -/
theorem claim_C3 (today : Int) (inv : Invoice) :
    (inv.invoice_date - today > 30 →
      inv.construct today = .error (.dateTooFar inv.invoice_date)) ∧
    (inv.invoice_date - today = 30 → inv.RestOk →
      inv.construct today = .ok inv) ∧
    (inv.invoice_date - today = 31 → ∀ x, inv.construct today ≠ .ok x) := by
  refine ⟨fun h => Invoice.construct_dateTooFar h, fun h hR => ?_,
    fun h x hx => ?_⟩
  · exact invoice_construct_eq_ok.mpr ⟨rfl, fun _ => by omega, hR⟩
  · obtain ⟨-, hD, -⟩ := invoice_construct_eq_ok.mp hx
    unfold Invoice.DateOk at hD
    omega

/-- Witness for C3: 31 days ahead fails, exactly 30 days ahead passes. -/
theorem claim_C3_witness :
    Invoice.construct 20000 inv31 = .error (.dateTooFar 20031) ∧
    Invoice.construct 20000 inv30 = .ok inv30 :=
  ⟨(claim_C3 20000 inv31).1 (by decide),
   (claim_C3 20000 inv30).2.1 (by decide) inv30_RestOk⟩

/-- C4: every error value that is not of a defined kind is translated —
returned by the total translation function, never propagated — to the
envelope with code `INTERNAL_ERROR`, the error's string form as message,
and the runtime type name under the `exception_type` details key. -/
theorem claim_C4 (type_name str_form : String) :
    handle_exception (.other type_name str_form) =
      ⟨"INTERNAL_ERROR", str_form, [("exception_type", .vStr type_name)]⟩ :=
  rfl

/-- C5: translating any defined error kind yields an envelope whose
`error` is that kind's documented code string and whose `details` keys are
exactly that kind's documented keys; in particular an LLM timeout of 30
seconds translates to code `LLM_TIMEOUT`, a message naming the 30
seconds, and details `timeout_seconds = 30`. -/
theorem claim_C5 :
    (∀ e : InvoiceAIError,
      (handle_exception (.known e)).error = documentedCode e ∧
      (handle_exception (.known e)).details.map Prod.fst =
        documentedDetailKeys e) ∧
    handle_exception (.known (.llmTimeout 30)) =
      ⟨"LLM_TIMEOUT", "LLM request timed out after 30 seconds",
        [("timeout_seconds", .vInt 30)]⟩ := by
  constructor
  · intro e
    cases e <;> exact ⟨rfl, rfl⟩
  · rfl

/-- C7: an `Invoice` construction input with an empty line-item list
fails construction, and a validly constructed invoice always carries at
least one line item. -/
theorem claim_C7 (today : Int) (inv : Invoice) :
    (inv.line_items = [] → ∀ x, inv.construct today ≠ .ok x) ∧
    (∀ x, inv.construct today = .ok x → 1 ≤ x.line_items.length) := by
  constructor
  · intro hempty x hx
    obtain ⟨-, -, hR⟩ := invoice_construct_eq_ok.mp hx
    unfold Invoice.RestOk at hR
    rw [hempty] at hR
    exact absurd hR.1 (by decide)
  · intro x hx
    obtain ⟨heq, -, hR⟩ := invoice_construct_eq_ok.mp hx
    subst heq
    unfold Invoice.RestOk at hR
    exact hR.1

/-- Witness for C7 at a concrete invoice with an empty line-item list. -/
theorem claim_C7_witness :
    Invoice.construct 20000 invEmpty ≠ .ok invEmpty :=
  (claim_C7 20000 invEmpty).1 (by decide) invEmpty

/-- C9: `ExtractionResult` construction checks only the `processing_time`
and `retry_count` range constraints and enforces no relationship between
`success` and `invoice`: every combination constructs when those two
constraints hold — in particular success with no invoice, and failure
with an invoice present. -/
theorem claim_C9 :
    (∀ r : ExtractionResult, 0 ≤ r.processing_time → 0 ≤ r.retry_count →
      r.construct = .ok r) ∧
    ExtractionResult.construct ⟨true, none, [], [], 1, 0, none⟩ =
      .ok ⟨true, none, [], [], 1, 0, none⟩ ∧
    ExtractionResult.construct ⟨false, some inv0, [], [], 1, 0, none⟩ =
      .ok ⟨false, some inv0, [], [], 1, 0, none⟩ := by
  have hall : ∀ r : ExtractionResult, 0 ≤ r.processing_time →
      0 ≤ r.retry_count → r.construct = .ok r := by
    intro r h1 h2
    unfold ExtractionResult.construct
    rw [check_pos h1, check_pos h2]
  exact ⟨hall, hall _ (by norm_num) (by norm_num),
    hall _ (by norm_num) (by norm_num)⟩

/-- Witness for C9: success flag true with no invoice present. -/
theorem claim_C9_witness :
    ExtractionResult.construct ⟨true, none, ["e"], ["w"], 2, 3, some "m"⟩ =
      .ok ⟨true, none, ["e"], ["w"], 2, 3, some "m"⟩ :=
  claim_C9.1 ⟨true, none, ["e"], ["w"], 2, 3, some "m"⟩ (by norm_num)
    (by norm_num)

/-- C10: the invoice-date check has no lower bound: any date on or before
the validation-time current date — arbitrarily old — passes
`validate_date`; only future dates are compared against the 30-day
window. -/
theorem claim_C10 (today d : Int) (h : d ≤ today) :
    validate_date today d = .ok d := by
  unfold validate_date
  rw [if_neg (by omega : ¬ d > today)]

/-- Witness for C10 at a date one million days in the past. -/
theorem claim_C10_witness :
    validate_date 20000 (-1000000) = .ok (-1000000) :=
  claim_C10 20000 (-1000000) (by decide)

/-- C6: serializing a validly constructed `Invoice` to its key/value tree
and reconstructing an `Invoice` from that tree succeeds, and
re-serializing the reconstruction yields the same tree (the embedding
proves the stronger fact that the reconstruction is the invoice itself,
so no field — the stamped extraction timestamp included — changes). -/
theorem claim_C6 (today now : Int) (inv : Invoice)
    (h : inv.construct today = .ok inv) :
    ∃ inv2, Invoice.fromDict today now inv.toDict = some inv2 ∧
      inv2.toDict = inv.toDict :=
  ⟨inv, invoice_fromDict_toDict today now inv h, rfl⟩

/-- Witness for C6 at the concrete invoice `inv0`. -/
theorem claim_C6_witness :
    ∃ inv2, Invoice.fromDict 20000 777 inv0.toDict = some inv2 ∧
      inv2.toDict = inv0.toDict :=
  claim_C6 20000 777 inv0 inv0_construct

/-- C8 (counterexample): the models are not frozen — `Invoice.Config`
leaves pydantic's default mutability — so attribute assignment on a
constructed instance succeeds, changes the field in place without
re-validation, and can break the construction-time reconciliation
invariant: the claim "no operation can change a field of a constructed
instance" is false. -/
theorem claim_C8_counterexample :
    setAttr invoiceModelConfig inv0 (fun i => { i with total_amount := 999 })
      = some { inv0 with total_amount := 999 } ∧
    ({ inv0 with total_amount := 999 } : Invoice).total_amount ≠
      inv0.total_amount ∧
    ∀ x, Invoice.construct 20000 { inv0 with total_amount := 999 } ≠
      .ok x := by
  refine ⟨rfl, by decide, fun x hx => ?_⟩
  obtain ⟨-, -, hR⟩ := invoice_construct_eq_ok.mp hx
  unfold Invoice.RestOk at hR
  exact absurd hR.2.2.2.2.2.2.1 (by norm_num [inv0])

/-- C8 (amended): the `Invoice` model configuration does not freeze the
model, so attribute assignment on a constructed instance always succeeds
(pydantic's default mutability) and runs no validator; immutability is
caller discipline, not enforced by the code. -/
theorem claim_C8_amended :
    invoiceModelConfig.frozen = false ∧
    ∀ (inv : Invoice) (upd : Invoice → Invoice),
      setAttr invoiceModelConfig inv upd = some (upd inv) :=
  ⟨rfl, fun _ _ => rfl⟩

end InvoiceAI
